import Mathlib

/-!
Verification of the SuryaDrishti energy-dispatch scheduler.

Shallow embedding of `src/backend/app/services/scheduler_engine.py`
(`class SchedulerEngine`) and proofs about the claims of the
specification.

Modelling conventions:
* Python floats are modelled as exact rationals (`ℚ`); decimal literals of
  the source (`0.7`, `0.01`, `0.4`, ...) become the corresponding exact
  rationals.  The `round(x, n)` calls applied to the values stored in a
  schedule slot are display formatting and are omitted: slots carry the
  exact values.
* `datetime` timestamps are modelled by their `.hour` component (a `ℕ`),
  the only component the engine ever consumes (`timestamp.hour` in
  `_select_devices_for_slot` and `_get_grid_rate`); the `isoformat()`
  string stored in a slot is abstracted to that same value.
* Python dictionaries for devices, configuration and forecast points become
  structures whose fields are exactly the keys the engine reads.  A key
  read with a `.get` default that is never absent in practice becomes a
  plain field; `forecast_point['power_kw']['mean']`, whose two read sites
  use *different* defaults (`0.0` in `generate_schedule`,
  `available_solar_kw` in `_select_devices_for_slot`), is kept as an
  `Option ℚ`.
* The engine contains no `raise` and mutates neither `self` nor its
  arguments, so `generate_schedule` is embedded as a total pure function.
-/

namespace SuryaDrishti

/-- ASCII lower-casing of one character, as Python `str.lower` acts on the
ASCII device names used by the engine. -/
def lowerChar (c : Char) : Char :=
  if 'A' ≤ c ∧ c ≤ 'Z' then Char.ofNat (c.toNat + 32) else c

/-- The character list of `name.lower()`. -/
def lowerName (s : String) : List Char :=
  s.data.map lowerChar

/-- Prefix test: `isPrefixChars pat l` holds when `l` starts with `pat`. -/
def isPrefixChars : List Char → List Char → Bool
  | [], _ => true
  | _ :: _, [] => false
  | a :: as, b :: bs => a == b && isPrefixChars as bs

/-- Substring test: `containsChars pat hay` is Python's `pat in hay`. -/
def containsChars (pat : List Char) : List Char → Bool
  | [] => pat.isEmpty
  | c :: t => isPrefixChars pat (c :: t) || containsChars pat t

/-- Preferred-hour window read from `device.get('preferred_hours')`
(keys `start` and `end`). -/
structure PreferredHours where
  startHour : ℕ
  stopHour : ℕ
  deriving DecidableEq

/-- One device dictionary, with exactly the keys `SchedulerEngine` reads. -/
structure Device where
  id : ℕ
  name : String
  device_type : String
  power_consumption_watts : ℚ
  priority_level : ℤ
  preferred_hours : Option PreferredHours
  is_active : Bool
  deriving DecidableEq

/-- The configuration read by `SchedulerEngine.__init__` (field names keep
the attribute names of the Python object; `capacity_kw` is the extra key
`self.config.get('capacity_kw', 50.0)` read in `_select_devices_for_slot`). -/
structure SchedulerConfig where
  battery_capacity_kwh : ℚ
  battery_max_charge_kw : ℚ
  battery_max_discharge_kw : ℚ
  battery_efficiency : ℚ
  battery_min_soc : ℚ
  battery_max_soc : ℚ
  grid_peak_rate : ℚ
  grid_off_peak_rate : ℚ
  grid_peak_start : ℕ
  grid_peak_stop : ℕ
  grid_export_rate : ℚ
  grid_export_enabled : Bool
  generator_fuel_cost : ℚ
  generator_fuel_consumption : ℚ
  generator_max_power : ℚ
  generator_min_runtime : ℚ
  optimization_mode : String
  safety_margin : ℚ
  capacity_kw : ℚ
  deriving DecidableEq

/-- One forecast point: `timestamp` (modelled by its hour, see above) and
`power_kw.mean` when present. -/
structure ForecastPoint where
  timestamp : ℕ
  mean? : Option ℚ
  deriving DecidableEq

/-- One entry of a slot's `devices` list (lines 271-277 of the source). -/
structure DeviceWithSource where
  id : ℕ
  name : String
  power_kw : ℚ
  power_source : String
  is_irrigation_pump : Bool
  deriving DecidableEq

/-- One schedule slot (lines 280-291 of the source). -/
structure ScheduleSlot where
  time : ℕ
  solar_generation_kw : ℚ
  total_load_kw : ℚ
  battery_charge_kw : ℚ
  battery_discharge_kw : ℚ
  battery_soc : ℚ
  grid_import_kw : ℚ
  grid_export_kw : ℚ
  generator_power_kw : ℚ
  devices : List DeviceWithSource
  deriving DecidableEq, Inhabited

/-- The metrics dictionary produced by `_calculate_metrics`. -/
structure Metrics where
  solar_utilization_percent : ℚ
  grid_import_reduction_percent : ℚ
  estimated_cost_savings : ℚ
  battery_cycle_efficiency : ℚ
  carbon_footprint_reduction_kg : ℚ
  generator_runtime_minutes : ℚ
  total_energy_kwh : ℚ
  solar_energy_kwh : ℚ
  grid_energy_kwh : ℚ
  grid_export_energy_kwh : ℚ
  grid_export_revenue : ℚ
  battery_energy_kwh : ℚ
  generator_energy_kwh : ℚ
  deriving DecidableEq

/-- The dictionary returned by `generate_schedule`. -/
structure RunResult where
  schedule : List ScheduleSlot
  metrics : Metrics
  initial_battery_soc : ℚ
  final_battery_soc : ℚ
  deriving DecidableEq

/-- The local mutable state threaded through the slot loop of
`generate_schedule`. -/
structure RunState where
  current_soc : ℚ
  battery_energy_kwh : ℚ
  total_solar_energy : ℚ
  total_load_energy : ℚ
  total_grid_import : ℚ
  total_grid_export : ℚ
  total_grid_export_revenue : ℚ
  total_generator_energy : ℚ
  generator_runtime : ℚ
  deriving DecidableEq

/-- Sort rank of a device type in `generate_schedule`'s `sorted` key:
`0 if essential else 1 if flexible else 2`. -/
def deviceTypeRank (d : Device) : ℕ :=
  if d.device_type == "essential" then 0
  else if d.device_type == "flexible" then 1
  else 2

/-- The lexicographic comparison on `(type rank, priority_level)` used by the
stable `sorted` call of `generate_schedule` (lines 67-73). -/
def deviceSortLE (a b : Device) : Bool :=
  deviceTypeRank a < deviceTypeRank b ||
    (deviceTypeRank a == deviceTypeRank b && a.priority_level ≤ b.priority_level)

/-- The irrigation-pump test used at lines 333-340 and 208-212:
`device_type == 'irrigation'` or the lower-cased name contains
`'irrigation'` or `'pump'`. -/
def isIrrigationPumpNamed (d : Device) : Bool :=
  d.device_type == "irrigation" ||
    containsChars "irrigation".data (lowerName d.name) ||
    containsChars "pump".data (lowerName d.name)

/-- Preferred-hour window check (`start_hour <= hour < end_hour`); a device
with no window always passes (`if preferred:`). -/
def inPreferredHours (d : Device) (hour : ℕ) : Bool :=
  match d.preferred_hours with
  | none => true
  | some p => p.startHour ≤ hour && hour < p.stopHour

/-- Safety buffer `essential_buffer`: the sum of the essential draws already selected,
times the safety margin (lines 394-398 and 439-443). -/
def essentialBuffer (cfg : SchedulerConfig) (selected : List Device) : ℚ :=
  ((selected.filter (fun d => d.device_type == "essential")).map
    (fun d => d.power_consumption_watts / 1000)).sum * cfg.safety_margin

/-- One iteration of the irrigation-pump loop of `_select_devices_for_slot`
(lines 369-424); the accumulator is `(selected_devices, available_power_kw)`. -/
def pumpStep (cfg : SchedulerConfig) (hour : ℕ) (isHighSolar shouldDelay : Bool)
    (acc : List Device × ℚ) (pump : Device) : List Device × ℚ :=
  if inPreferredHours pump hour then
    if shouldDelay then acc
    else
      let pumpPower := pump.power_consumption_watts / 1000
      let buffer := essentialBuffer cfg acc.1
      if isHighSolar then
        if acc.2 - pumpPower ≥ buffer * (1/2) then (acc.1 ++ [pump], acc.2 - pumpPower)
        else acc
      else if acc.2 ≥ pumpPower + buffer then (acc.1 ++ [pump], acc.2 - pumpPower)
      else if acc.2 > 0 then (acc.1 ++ [pump], acc.2 - pumpPower)
      else if pump.priority_level ≤ 2 then (acc.1 ++ [pump], acc.2 - pumpPower)
      else acc
  else acc

/-- One iteration of the flexible/optional loop of `_select_devices_for_slot`
(lines 427-447). -/
def flexibleStep (cfg : SchedulerConfig) (hour : ℕ)
    (acc : List Device × ℚ) (device : Device) : List Device × ℚ :=
  if inPreferredHours device hour then
    let devicePower := device.power_consumption_watts / 1000
    let buffer := essentialBuffer cfg acc.1
    if acc.2 - devicePower ≥ buffer then (acc.1 ++ [device], acc.2 - devicePower)
    else acc
  else acc

/-- Model of `SchedulerEngine._select_devices_for_slot` (lines 312-449). -/
def selectDevicesForSlot (cfg : SchedulerConfig) (devices : List Device) (hour : ℕ)
    (forecastPoint : ForecastPoint) (currentSoc availableSolar : ℚ) : List Device :=
  let essentials := devices.filter
    (fun d => d.device_type == "essential" && d.is_active)
  let pumps := devices.filter
    (fun d => d.is_active && isIrrigationPumpNamed d)
  let flexibles := devices.filter
    (fun d => (d.device_type == "flexible" || d.device_type == "optional") &&
      d.is_active && !(isIrrigationPumpNamed d))
  let forecastPower := forecastPoint.mean?.getD availableSolar
  let powerDrop := forecastPower < availableSolar * (7/10)
  let isHighSolar := availableSolar > max 20 (cfg.capacity_kw * (1/2))
  let shouldDelay := powerDrop && currentSoc < (2/5)
  let afterEss := essentials.foldl
    (fun acc d => (acc.1 ++ [d], acc.2 - d.power_consumption_watts / 1000))
    ([], availableSolar)
  let pumpsSorted := pumps.mergeSort (fun a b => a.priority_level ≤ b.priority_level)
  let afterPumps := pumpsSorted.foldl (pumpStep cfg hour isHighSolar shouldDelay) afterEss
  let afterFlex := flexibles.foldl (flexibleStep cfg hour) afterPumps
  afterFlex.1

/-- Lines 95-97: the supply value used for a slot, with negative raw values
clamped to zero. -/
def clampSupply (p : ForecastPoint) : ℚ :=
  let raw := p.mean?.getD 0
  if raw < 0 then 0 else raw

/-- Model of `SchedulerEngine._get_grid_rate` (lines 451-459). -/
def gridRate (cfg : SchedulerConfig) (hour : ℕ) : ℚ :=
  if cfg.grid_peak_start ≤ hour ∧ hour < cfg.grid_peak_stop then cfg.grid_peak_rate
  else cfg.grid_off_peak_rate

/-- The per-slot battery/grid/generator dispatch decision of
`generate_schedule` (lines 120-171); `generator_runtime_delta` records the
`generator_runtime += slot_duration_hours` of line 169. -/
structure EnergyBalance where
  battery_charge_kw : ℚ
  battery_discharge_kw : ℚ
  grid_import_kw : ℚ
  grid_export_kw : ℚ
  generator_power_kw : ℚ
  generator_runtime_delta : ℚ
  deriving DecidableEq

/-- Lines 120-171 of `generate_schedule`. -/
def energyBalance (cfg : SchedulerConfig) (hour : ℕ)
    (currentSoc netEnergy slotHours : ℚ) : EnergyBalance :=
  if 0 < netEnergy then
    let charge := min cfg.battery_max_charge_kw (min netEnergy
      ((cfg.battery_max_soc - currentSoc) * cfg.battery_capacity_kwh / slotHours))
    let remainingExcess := netEnergy - charge
    if remainingExcess > 1/100 ∧ cfg.grid_export_enabled then
      ⟨charge, 0, 0, remainingExcess, 0, 0⟩
    else
      ⟨charge, 0, 0, 0, 0, 0⟩
  else if netEnergy < 0 then
    let deficit0 := |netEnergy|
    let maxDischargeRate := min cfg.battery_max_discharge_kw
      ((currentSoc - cfg.battery_min_soc) * cfg.battery_capacity_kwh / slotHours)
    let discharge := if 0 < maxDischargeRate ∧ 0 < deficit0
      then min maxDischargeRate deficit0 else 0
    let deficit := deficit0 - discharge
    if deficit > 1/100 then
      let gridCost := gridRate cfg hour * deficit * slotHours
      let generatorCost := deficit * slotHours * cfg.generator_fuel_consumption *
        cfg.generator_fuel_cost
      if generatorCost < gridCost ∧ deficit ≤ cfg.generator_max_power then
        ⟨0, discharge, 0, 0, min deficit cfg.generator_max_power, slotHours⟩
      else
        ⟨0, discharge, deficit, 0, 0, 0⟩
    else
      ⟨0, discharge, 0, 0, 0, 0⟩
  else
    ⟨0, 0, 0, 0, 0, 0⟩

/-- Lines 176-179: the stored battery energy clamped to
`[min_soc, max_soc] × capacity`. -/
def clampBatteryEnergy (cfg : SchedulerConfig) (e : ℚ) : ℚ :=
  max (cfg.battery_min_soc * cfg.battery_capacity_kwh)
    (min (cfg.battery_max_soc * cfg.battery_capacity_kwh) e)

/-- The running `power_allocated` dictionary of the per-device power-source
attribution (lines 202-277). -/
structure SourceAlloc where
  solar : ℚ
  battery : ℚ
  grid : ℚ
  generator : ℚ
  deriving DecidableEq

/-- Attribution of one device's power to sources (lines 206-277): threads the
mutable `device_power_kw`, `power_source` and `power_allocated` through the
four source stages. -/
def deviceSourceRecord (solarUsed batteryUsed gridUsed generatorUsed : ℚ)
    (alloc : SourceAlloc) (device : Device) : DeviceWithSource × SourceAlloc :=
  let p0 := device.power_consumption_watts / 1000
  let src0 := "solar"
  let step1 :=
    if alloc.solar < solarUsed then
      let remainingSolar := solarUsed - alloc.solar
      if p0 ≤ remainingSolar then (src0, p0, { alloc with solar := alloc.solar + p0 })
      else (src0, p0 - remainingSolar, { alloc with solar := alloc.solar + remainingSolar })
    else (src0, p0, alloc)
  let step2 :=
    if 0 < step1.2.1 ∧ step1.2.2.battery < batteryUsed then
      let remainingBattery := batteryUsed - step1.2.2.battery
      let src := if step1.1 == "solar" then "solar+battery" else "battery"
      if step1.2.1 ≤ remainingBattery then
        (src, 0, { step1.2.2 with battery := step1.2.2.battery + step1.2.1 })
      else
        (src, step1.2.1 - remainingBattery,
          { step1.2.2 with battery := step1.2.2.battery + remainingBattery })
    else step1
  let step3 :=
    if 0 < step2.2.1 ∧ step2.2.2.grid < gridUsed then
      let remainingGrid := gridUsed - step2.2.2.grid
      let src := if step2.1 == "solar" || step2.1 == "solar+battery" then "solar+grid"
        else if step2.1 == "battery" then "battery+grid"
        else "grid"
      if step2.2.1 ≤ remainingGrid then
        (src, 0, { step2.2.2 with grid := step2.2.2.grid + step2.2.1 })
      else
        (src, step2.2.1 - remainingGrid,
          { step2.2.2 with grid := step2.2.2.grid + remainingGrid })
    else step2
  let step4 :=
    if 0 < step3.2.1 ∧ step3.2.2.generator < generatorUsed then
      ("generator", { step3.2.2 with generator := step3.2.2.generator + step3.2.1 })
    else (step3.1, step3.2.2)
  ({ id := device.id
     name := device.name
     power_kw := device.power_consumption_watts / 1000
     power_source := step4.1
     is_irrigation_pump := isIrrigationPumpNamed device }, step4.2)

/-- The `devices_with_source` list for one slot (lines 202-277). -/
def deviceSourceRecords (solarUsed batteryUsed gridUsed generatorUsed : ℚ)
    (selected : List Device) : List DeviceWithSource :=
  (selected.foldl
    (fun (acc : List DeviceWithSource × SourceAlloc) d =>
      let r := deviceSourceRecord solarUsed batteryUsed gridUsed generatorUsed acc.2 d
      (acc.1 ++ [r.1], r.2))
    ([], ⟨0, 0, 0, 0⟩)).1

/-- One iteration of the forecast loop of `generate_schedule` (lines 90-291):
device selection, energy balance, battery update, metric accumulation and
the emitted slot record. -/
def simulateSlot (cfg : SchedulerConfig) (sortedDevices : List Device)
    (slotMinutes : ℕ) (st : RunState) (point : ForecastPoint) :
    ScheduleSlot × RunState :=
  let timestamp := point.timestamp
  let solarGeneration := clampSupply point
  let slotHours := (slotMinutes : ℚ) / 60
  let selected := selectDevicesForSlot cfg sortedDevices timestamp point
    st.current_soc solarGeneration
  let totalLoad := (selected.map (fun d => d.power_consumption_watts / 1000)).sum
  let net := solarGeneration - totalLoad
  let eb := energyBalance cfg timestamp st.current_soc net slotHours
  let batteryEnergy := st.battery_energy_kwh +
    (eb.battery_charge_kw * cfg.battery_efficiency -
      eb.battery_discharge_kw / cfg.battery_efficiency) * slotHours
  let batteryEnergyClamped := clampBatteryEnergy cfg batteryEnergy
  let newSoc := batteryEnergyClamped / cfg.battery_capacity_kwh
  let solarUsed := min solarGeneration totalLoad
  let remainingAfterSolar := max 0 (totalLoad - solarUsed)
  let batteryUsed := min eb.battery_discharge_kw remainingAfterSolar
  let remainingAfterBattery := max 0 (remainingAfterSolar - batteryUsed)
  let gridUsed := min eb.grid_import_kw remainingAfterBattery
  let generatorUsed := min eb.generator_power_kw
    (max 0 (remainingAfterBattery - gridUsed))
  ({ time := timestamp
     solar_generation_kw := solarGeneration
     total_load_kw := totalLoad
     battery_charge_kw := eb.battery_charge_kw
     battery_discharge_kw := eb.battery_discharge_kw
     battery_soc := newSoc
     grid_import_kw := eb.grid_import_kw
     grid_export_kw := eb.grid_export_kw
     generator_power_kw := eb.generator_power_kw
     devices := deviceSourceRecords solarUsed batteryUsed gridUsed generatorUsed selected },
   { current_soc := newSoc
     battery_energy_kwh := batteryEnergyClamped
     total_solar_energy := st.total_solar_energy + solarGeneration * slotHours
     total_load_energy := st.total_load_energy + totalLoad * slotHours
     total_grid_import := st.total_grid_import + eb.grid_import_kw * slotHours
     total_grid_export := st.total_grid_export + eb.grid_export_kw * slotHours
     total_grid_export_revenue := st.total_grid_export_revenue +
       eb.grid_export_kw * slotHours * cfg.grid_export_rate
     total_generator_energy := st.total_generator_energy +
       eb.generator_power_kw * slotHours
     generator_runtime := st.generator_runtime + eb.generator_runtime_delta })

/-- The forecast loop of `generate_schedule`, emitting one slot per forecast
point and threading the run state forward. -/
def runSlots (cfg : SchedulerConfig) (sortedDevices : List Device)
    (slotMinutes : ℕ) : RunState → List ForecastPoint →
    List ScheduleSlot × RunState
  | st, [] => ([], st)
  | st, p :: ps =>
      let head := simulateSlot cfg sortedDevices slotMinutes st p
      let rest := runSlots cfg sortedDevices slotMinutes head.2 ps
      (head.1 :: rest.1, rest.2)

/-- Model of `SchedulerEngine._calculate_metrics` (lines 461-512); the unused
`forecast_data` parameter is dropped. -/
def calculateMetrics (cfg : SchedulerConfig)
    (totalSolar totalLoad totalGridImport totalGridExport totalExportRevenue
      totalGeneratorEnergy generatorRuntimeHours : ℚ) : Metrics :=
  let totalEnergy := totalLoad
  let solarUtilization :=
    if 0 < totalEnergy then totalSolar / max totalEnergy (1/100) * 100 else 0
  let gridCost := totalGridImport * cfg.grid_peak_rate
  let generatorCost := totalGeneratorEnergy * cfg.generator_fuel_consumption *
    cfg.generator_fuel_cost
  let totalCost := gridCost + generatorCost - totalExportRevenue
  let baselineCost := totalEnergy * cfg.grid_peak_rate
  { solar_utilization_percent := solarUtilization
    grid_import_reduction_percent :=
      (totalEnergy - totalGridImport) / max totalEnergy (1/100) * 100
    estimated_cost_savings := baselineCost - totalCost
    battery_cycle_efficiency := cfg.battery_efficiency * 100
    carbon_footprint_reduction_kg := (totalSolar + totalGridExport) * (1/2)
    generator_runtime_minutes := generatorRuntimeHours * 60
    total_energy_kwh := totalEnergy
    solar_energy_kwh := totalSolar
    grid_energy_kwh := totalGridImport
    grid_export_energy_kwh := totalGridExport
    grid_export_revenue := totalExportRevenue
    battery_energy_kwh := totalSolar - totalLoad + totalGridImport +
      totalGeneratorEnergy - totalGridExport
    generator_energy_kwh := totalGeneratorEnergy }

/-- Model of `SchedulerEngine.generate_schedule` (lines 44-310). -/
def generateSchedule (cfg : SchedulerConfig) (forecastData : List ForecastPoint)
    (devices : List Device) (initialBatterySoc : ℚ) (slotMinutes : ℕ) :
    RunResult :=
  let activeDevices := devices.filter (fun d => d.is_active)
  let sortedDevices := activeDevices.mergeSort deviceSortLE
  let st0 : RunState :=
    { current_soc := initialBatterySoc
      battery_energy_kwh := initialBatterySoc * cfg.battery_capacity_kwh
      total_solar_energy := 0
      total_load_energy := 0
      total_grid_import := 0
      total_grid_export := 0
      total_grid_export_revenue := 0
      total_generator_energy := 0
      generator_runtime := 0 }
  let run := runSlots cfg sortedDevices slotMinutes st0 forecastData
  { schedule := run.1
    metrics := calculateMetrics cfg run.2.total_solar_energy run.2.total_load_energy
      run.2.total_grid_import run.2.total_grid_export run.2.total_grid_export_revenue
      run.2.total_generator_energy run.2.generator_runtime
    initial_battery_soc := initialBatterySoc
    final_battery_soc := run.2.current_soc }

/-- A concrete configuration used by the concrete runs below; its values are
the documented defaults of `SchedulerEngine.__init__`. -/
def cfgBase : SchedulerConfig :=
  { battery_capacity_kwh := 50
    battery_max_charge_kw := 10
    battery_max_discharge_kw := 10
    battery_efficiency := 19/20
    battery_min_soc := 1/5
    battery_max_soc := 19/20
    grid_peak_rate := 10
    grid_off_peak_rate := 5
    grid_peak_start := 8
    grid_peak_stop := 20
    grid_export_rate := 4
    grid_export_enabled := true
    generator_fuel_cost := 80
    generator_fuel_consumption := 1/4
    generator_max_power := 20
    generator_min_runtime := 30
    optimization_mode := "cost"
    safety_margin := 1/10
    capacity_kw := 50 }

/-- The base configuration with grid export disabled and a 2 kW charge
limit (the spec's Scenario B). -/
def cfgNoExport : SchedulerConfig :=
  { cfgBase with grid_export_enabled := false, battery_max_charge_kw := 2 }

/-- The base configuration with cheap generator fuel, making the generator's
cost per kWh (0.25 × 8 = 2) cheaper than both grid rates. -/
def cfgCheapGenerator : SchedulerConfig :=
  { cfgBase with generator_fuel_cost := 8 }

/-- A 1 kW essential device. -/
def essentialLight : Device :=
  { id := 1
    name := "light"
    device_type := "essential"
    power_consumption_watts := 1000
    priority_level := 1
    preferred_hours := none
    is_active := true }

/-- A 5 W essential device (draw below the engine's 0.01 kW threshold). -/
def sensorEssential : Device :=
  { id := 2
    name := "sensor"
    device_type := "essential"
    power_consumption_watts := 5
    priority_level := 1
    preferred_hours := none
    is_active := true }

/-- A 2 kW essential device. -/
def heavyEssential : Device :=
  { id := 5
    name := "cold storage"
    device_type := "essential"
    power_consumption_watts := 2000
    priority_level := 1
    preferred_hours := none
    is_active := true }

/-- A 1 kW device of class `irrigation`. -/
def irrigationPump : Device :=
  { id := 7
    name := "field irrigation"
    device_type := "irrigation"
    power_consumption_watts := 1000
    priority_level := 1
    preferred_hours := none
    is_active := true }

/-- A flexible device whose name contains `pump`. -/
def waterPumpFlexible : Device :=
  { id := 3
    name := "water pump"
    device_type := "flexible"
    power_consumption_watts := 500
    priority_level := 1
    preferred_hours := none
    is_active := true }

/-- A flexible device whose name contains neither `irrigation` nor `pump`. -/
def heaterFlexible : Device :=
  { id := 4
    name := "heater"
    device_type := "flexible"
    power_consumption_watts := 500
    priority_level := 1
    preferred_hours := none
    is_active := true }

/-- Residual deficit of a slot after battery discharge, reconstructed from
the slot's recorded fields: load minus supply minus battery discharge. -/
def residualDeficit (s : ScheduleSlot) : ℚ :=
  s.total_load_kw - s.solar_generation_kw - s.battery_discharge_kw

/-- Generator cost of a slot's residual deficit, as the claim words it:
deficit × fuel_consumption_per_kwh × fuel_cost_per_liter. -/
def claimGeneratorCost (cfg : SchedulerConfig) (s : ScheduleSlot) : ℚ :=
  residualDeficit s * cfg.generator_fuel_consumption * cfg.generator_fuel_cost

/-- Grid cost of a slot's residual deficit, as the claim words it:
deficit × the peak or off-peak rate selected by the slot's timestamp. -/
def claimGridCost (cfg : SchedulerConfig) (s : ScheduleSlot) : ℚ :=
  residualDeficit s * gridRate cfg s.time

/-- Per-slot power-balance gap: the supply side minus the use side of the
claimed balance equation. -/
def balanceGap (s : ScheduleSlot) : ℚ :=
  s.solar_generation_kw + s.battery_discharge_kw + s.grid_import_kw +
    s.generator_power_kw -
    (s.total_load_kw + s.battery_charge_kw + s.grid_export_kw)

/-- Abbreviation: the selected-load total (`total_load_kw`) of one slot, as
computed inside `simulateSlot`. -/
def slotLoad (cfg : SchedulerConfig) (devs : List Device) (st : RunState)
    (p : ForecastPoint) : ℚ :=
  ((selectDevicesForSlot cfg devs p.timestamp p st.current_soc (clampSupply p)).map
    (fun d => d.power_consumption_watts / 1000)).sum

/-- Abbreviation: the energy-balance decision of one slot. -/
def slotBalance (cfg : SchedulerConfig) (devs : List Device) (mins : ℕ)
    (st : RunState) (p : ForecastPoint) : EnergyBalance :=
  energyBalance cfg p.timestamp st.current_soc
    (clampSupply p - slotLoad cfg devs st p) ((mins : ℚ) / 60)

/-- Abbreviation: the unclamped stored battery energy after one slot. -/
def slotBatteryEnergy (cfg : SchedulerConfig) (devs : List Device) (mins : ℕ)
    (st : RunState) (p : ForecastPoint) : ℚ :=
  st.battery_energy_kwh +
    ((slotBalance cfg devs mins st p).battery_charge_kw * cfg.battery_efficiency -
      (slotBalance cfg devs mins st p).battery_discharge_kw /
        cfg.battery_efficiency) * ((mins : ℚ) / 60)

/-! Helper lemmas about the slot loop. -/

/-- Any property established for every slot a single step can emit holds for
every slot of the loop's output. -/
theorem runSlots_forall (cfg : SchedulerConfig) (devs : List Device) (mins : ℕ)
    (P : ScheduleSlot → Prop)
    (hP : ∀ st p, P (simulateSlot cfg devs mins st p).1) :
    ∀ (ps : List ForecastPoint) (st : RunState),
      ∀ s ∈ (runSlots cfg devs mins st ps).1, P s := by
  intro ps
  induction ps with
  | nil => intro st s hs; simp [runSlots] at hs
  | cons p t ih =>
      intro st s hs
      simp only [runSlots, List.mem_cons] at hs
      rcases hs with h | h
      · subst h; exact hP st p
      · exact ih _ s h

/-- Specialisation of `runSlots_forall` to the slots of a full run. -/
theorem generateSchedule_slots_forall (cfg : SchedulerConfig)
    (fc : List ForecastPoint) (devs : List Device) (soc : ℚ) (mins : ℕ)
    (P : ScheduleSlot → Prop)
    (hP : ∀ ds st p, P (simulateSlot cfg ds mins st p).1) :
    ∀ s ∈ (generateSchedule cfg fc devs soc mins).schedule, P s := by
  intro s hs
  simp only [generateSchedule] at hs
  exact runSlots_forall cfg _ mins P (hP _) fc _ s hs

/-- The supply recorded in the slots is the clamped forecast supply, one slot
per forecast point. -/
theorem runSlots_map_solar (cfg : SchedulerConfig) (devs : List Device)
    (mins : ℕ) :
    ∀ (ps : List ForecastPoint) (st : RunState),
      ((runSlots cfg devs mins st ps).1).map (fun s => s.solar_generation_kw) =
        ps.map clampSupply := by
  intro ps
  induction ps with
  | nil => intro st; simp [runSlots]
  | cons p t ih =>
      intro st
      simp only [runSlots, List.map_cons]
      rw [ih]
      rfl

/-! Helper lemmas about the per-slot energy balance. -/

/-- The battery charge decided by the energy balance never exceeds the
configured maximum charge rate. -/
theorem energyBalance_charge_le (cfg : SchedulerConfig) (hour : ℕ)
    (soc net h : ℚ) (hc : 0 ≤ cfg.battery_max_charge_kw) :
    (energyBalance cfg hour soc net h).battery_charge_kw ≤
      cfg.battery_max_charge_kw := by
  simp only [energyBalance]
  split_ifs <;> first
    | exact hc
    | exact min_le_left _ _

/-- The battery discharge decided by the energy balance never exceeds the
configured maximum discharge rate. -/
theorem energyBalance_discharge_le (cfg : SchedulerConfig) (hour : ℕ)
    (soc net h : ℚ) (hd : 0 ≤ cfg.battery_max_discharge_kw) :
    (energyBalance cfg hour soc net h).battery_discharge_kw ≤
      cfg.battery_max_discharge_kw := by
  simp only [energyBalance]
  split_ifs <;> first
    | exact hd
    | exact le_trans (min_le_left _ _) (min_le_left _ _)

/-- Charge and discharge are never both strictly positive. -/
theorem energyBalance_not_both (cfg : SchedulerConfig) (hour : ℕ)
    (soc net h : ℚ) :
    ¬(0 < (energyBalance cfg hour soc net h).battery_charge_kw ∧
      0 < (energyBalance cfg hour soc net h).battery_discharge_kw) := by
  simp only [energyBalance]
  split_ifs <;> simp

/-- With grid export enabled, the energy balance leaves a gap of at most
0.01 kW between the supply side and the use side: surplus below the
0.01 kW export threshold and residual deficits below the 0.01 kW dispatch
threshold are the only unbalanced amounts. -/
theorem energyBalance_gap (cfg : SchedulerConfig) (hour : ℕ) (soc net h : ℚ)
    (hexp : cfg.grid_export_enabled = true) :
    |net + (energyBalance cfg hour soc net h).battery_discharge_kw +
      (energyBalance cfg hour soc net h).grid_import_kw +
      (energyBalance cfg hour soc net h).generator_power_kw -
      (energyBalance cfg hour soc net h).battery_charge_kw -
      (energyBalance cfg hour soc net h).grid_export_kw| ≤ 1 / 100 := by
  rcases lt_trichotomy net 0 with hneg | hzero | hpos
  · have hnp : ¬ 0 < net := not_lt.mpr hneg.le
    simp only [energyBalance, if_neg hnp, if_pos hneg, abs_of_neg hneg]
    set R := min cfg.battery_max_discharge_kw
      ((soc - cfg.battery_min_soc) * cfg.battery_capacity_kwh / h) with hR
    set D := (if 0 < R ∧ 0 < -net then min R (-net) else 0) with hD
    have hDle : D ≤ -net := by
      rw [hD]; split_ifs with hd
      · exact min_le_right _ _
      · linarith
    by_cases hbig : -net - D > 1/100
    · rw [if_pos hbig]
      by_cases hcost : (-net - D) * h * cfg.generator_fuel_consumption *
          cfg.generator_fuel_cost < gridRate cfg hour * (-net - D) * h ∧
          -net - D ≤ cfg.generator_max_power
      · rw [if_pos hcost]
        dsimp only
        rw [min_eq_left hcost.2, abs_le]
        constructor <;> linarith
      · rw [if_neg hcost]
        dsimp only
        rw [abs_le]
        constructor <;> linarith
    · rw [if_neg hbig]
      dsimp only
      push_neg at hbig
      rw [abs_le]
      constructor <;> linarith
  · have h1 : ¬ 0 < net := by rw [hzero]; exact lt_irrefl 0
    have h2 : ¬ net < 0 := by rw [hzero]; exact lt_irrefl 0
    simp only [energyBalance, if_neg h1, if_neg h2]
    rw [hzero]
    norm_num
  · simp only [energyBalance, if_pos hpos]
    set C := min cfg.battery_max_charge_kw (min net
      ((cfg.battery_max_soc - soc) * cfg.battery_capacity_kwh / h)) with hC
    have hCle : C ≤ net := le_trans (min_le_right _ _) (min_le_left _ _)
    by_cases hrem : net - C > 1/100 ∧ cfg.grid_export_enabled = true
    · rw [if_pos hrem]
      dsimp only
      rw [abs_le]
      constructor <;> linarith
    · rw [if_neg hrem]
      dsimp only
      have hsmall : ¬ (net - C > 1/100) := fun hgt => hrem ⟨hgt, hexp⟩
      push_neg at hsmall
      rw [abs_le]
      constructor <;> linarith

/-- When the residual deficit after battery discharge exceeds the 0.01 kW
threshold, the energy balance sources it entirely from the generator (when
the generator is cheaper per the claim's cost comparison and the deficit is
within its capacity) and otherwise entirely from the grid. -/
theorem energyBalance_residual (cfg : SchedulerConfig) (hour : ℕ)
    (soc net h r : ℚ) (hh : 0 < h)
    (hreq : r = -net - (energyBalance cfg hour soc net h).battery_discharge_kw)
    (hr : 1/100 < r) :
    (if r * cfg.generator_fuel_consumption * cfg.generator_fuel_cost <
          r * gridRate cfg hour ∧ r ≤ cfg.generator_max_power
     then (energyBalance cfg hour soc net h).generator_power_kw = r ∧
          (energyBalance cfg hour soc net h).grid_import_kw = 0
     else (energyBalance cfg hour soc net h).grid_import_kw = r ∧
          (energyBalance cfg hour soc net h).generator_power_kw = 0) := by
  rcases lt_trichotomy net 0 with hneg | hzero | hpos
  · have hnp : ¬ 0 < net := not_lt.mpr hneg.le
    simp only [energyBalance, if_neg hnp, if_pos hneg, abs_of_neg hneg] at hreq ⊢
    set R := min cfg.battery_max_discharge_kw
      ((soc - cfg.battery_min_soc) * cfg.battery_capacity_kwh / h) with hR
    set D := (if 0 < R ∧ 0 < -net then min R (-net) else 0) with hD
    by_cases hbig : -net - D > 1/100
    · rw [if_pos hbig] at hreq ⊢
      by_cases hcost : (-net - D) * h * cfg.generator_fuel_consumption *
          cfg.generator_fuel_cost < gridRate cfg hour * (-net - D) * h ∧
          -net - D ≤ cfg.generator_max_power
      · rw [if_pos hcost] at hreq ⊢
        dsimp only at hreq ⊢
        subst hreq
        have hclaim : (-net - D) * cfg.generator_fuel_consumption *
            cfg.generator_fuel_cost < (-net - D) * gridRate cfg hour := by
          have := hcost.1
          rw [show (-net - D) * h * cfg.generator_fuel_consumption *
                cfg.generator_fuel_cost =
                (-net - D) * cfg.generator_fuel_consumption *
                cfg.generator_fuel_cost * h from by ring,
              show gridRate cfg hour * (-net - D) * h =
                (-net - D) * gridRate cfg hour * h from by ring] at this
          exact (mul_lt_mul_right hh).mp this
        rw [if_pos ⟨hclaim, hcost.2⟩]
        exact ⟨min_eq_left hcost.2, rfl⟩
      · rw [if_neg hcost] at hreq ⊢
        dsimp only at hreq ⊢
        subst hreq
        have hnclaim : ¬((-net - D) * cfg.generator_fuel_consumption *
            cfg.generator_fuel_cost < (-net - D) * gridRate cfg hour ∧
            -net - D ≤ cfg.generator_max_power) := by
          intro hc
          refine hcost ⟨?_, hc.2⟩
          rw [show (-net - D) * h * cfg.generator_fuel_consumption *
                cfg.generator_fuel_cost =
                (-net - D) * cfg.generator_fuel_consumption *
                cfg.generator_fuel_cost * h from by ring,
              show gridRate cfg hour * (-net - D) * h =
                (-net - D) * gridRate cfg hour * h from by ring]
          exact (mul_lt_mul_right hh).mpr hc.1
        rw [if_neg hnclaim]
        exact ⟨rfl, rfl⟩
    · rw [if_neg hbig] at hreq
      dsimp only at hreq
      rw [hreq] at hr
      exact absurd hr hbig
  · have h1 : ¬ 0 < net := by rw [hzero]; exact lt_irrefl 0
    have h2 : ¬ net < 0 := by rw [hzero]; exact lt_irrefl 0
    simp only [energyBalance, if_neg h1, if_neg h2] at hreq
    rw [hreq, hzero] at hr
    norm_num at hr
  · simp only [energyBalance, if_pos hpos] at hreq
    split_ifs at hreq <;> dsimp only at hreq <;>
      (rw [hreq] at hr; linarith)

/-! Projection lemmas for `simulateSlot` (all definitional). -/

theorem simulateSlot_time (cfg : SchedulerConfig) (devs : List Device)
    (mins : ℕ) (st : RunState) (p : ForecastPoint) :
    (simulateSlot cfg devs mins st p).1.time = p.timestamp := rfl

theorem simulateSlot_solar (cfg : SchedulerConfig) (devs : List Device)
    (mins : ℕ) (st : RunState) (p : ForecastPoint) :
    (simulateSlot cfg devs mins st p).1.solar_generation_kw = clampSupply p := rfl

theorem simulateSlot_load (cfg : SchedulerConfig) (devs : List Device)
    (mins : ℕ) (st : RunState) (p : ForecastPoint) :
    (simulateSlot cfg devs mins st p).1.total_load_kw =
      slotLoad cfg devs st p := rfl

theorem simulateSlot_charge (cfg : SchedulerConfig) (devs : List Device)
    (mins : ℕ) (st : RunState) (p : ForecastPoint) :
    (simulateSlot cfg devs mins st p).1.battery_charge_kw =
      (slotBalance cfg devs mins st p).battery_charge_kw := rfl

theorem simulateSlot_discharge (cfg : SchedulerConfig) (devs : List Device)
    (mins : ℕ) (st : RunState) (p : ForecastPoint) :
    (simulateSlot cfg devs mins st p).1.battery_discharge_kw =
      (slotBalance cfg devs mins st p).battery_discharge_kw := rfl

theorem simulateSlot_gridImport (cfg : SchedulerConfig) (devs : List Device)
    (mins : ℕ) (st : RunState) (p : ForecastPoint) :
    (simulateSlot cfg devs mins st p).1.grid_import_kw =
      (slotBalance cfg devs mins st p).grid_import_kw := rfl

theorem simulateSlot_gridExport (cfg : SchedulerConfig) (devs : List Device)
    (mins : ℕ) (st : RunState) (p : ForecastPoint) :
    (simulateSlot cfg devs mins st p).1.grid_export_kw =
      (slotBalance cfg devs mins st p).grid_export_kw := rfl

theorem simulateSlot_generator (cfg : SchedulerConfig) (devs : List Device)
    (mins : ℕ) (st : RunState) (p : ForecastPoint) :
    (simulateSlot cfg devs mins st p).1.generator_power_kw =
      (slotBalance cfg devs mins st p).generator_power_kw := rfl

theorem simulateSlot_soc (cfg : SchedulerConfig) (devs : List Device)
    (mins : ℕ) (st : RunState) (p : ForecastPoint) :
    (simulateSlot cfg devs mins st p).1.battery_soc =
      clampBatteryEnergy cfg (slotBatteryEnergy cfg devs mins st p) /
        cfg.battery_capacity_kwh := rfl

theorem slotBalance_eq (cfg : SchedulerConfig) (devs : List Device)
    (mins : ℕ) (st : RunState) (p : ForecastPoint) :
    slotBalance cfg devs mins st p =
      energyBalance cfg p.timestamp st.current_soc
        (clampSupply p - slotLoad cfg devs st p) ((mins : ℚ) / 60) := rfl

/-! Slot-level consequences. -/

/-- The clamped battery energy, divided by a positive capacity, is a state of
charge between the configured bounds. -/
theorem clampBatteryEnergy_soc_mem (cfg : SchedulerConfig)
    (hcap : 0 < cfg.battery_capacity_kwh)
    (hle : cfg.battery_min_soc ≤ cfg.battery_max_soc) (e : ℚ) :
    cfg.battery_min_soc ≤ clampBatteryEnergy cfg e / cfg.battery_capacity_kwh ∧
      clampBatteryEnergy cfg e / cfg.battery_capacity_kwh ≤
        cfg.battery_max_soc := by
  constructor
  · rw [le_div_iff₀ hcap]
    exact le_max_left _ _
  · rw [div_le_iff₀ hcap]
    exact max_le (mul_le_mul_of_nonneg_right hle hcap.le) (min_le_left _ _)

/-- Every emitted slot records a state of charge inside the configured
bounds, whatever the incoming state. -/
theorem simulateSlot_soc_mem (cfg : SchedulerConfig) (devs : List Device)
    (mins : ℕ) (st : RunState) (p : ForecastPoint)
    (hcap : 0 < cfg.battery_capacity_kwh)
    (hle : cfg.battery_min_soc ≤ cfg.battery_max_soc) :
    cfg.battery_min_soc ≤ (simulateSlot cfg devs mins st p).1.battery_soc ∧
      (simulateSlot cfg devs mins st p).1.battery_soc ≤
        cfg.battery_max_soc := by
  rw [simulateSlot_soc]
  exact clampBatteryEnergy_soc_mem cfg hcap hle _

/-- With grid export enabled, every emitted slot satisfies the power balance
up to the engine's 0.01 kW thresholds. -/
theorem simulateSlot_balanceGap (cfg : SchedulerConfig) (devs : List Device)
    (mins : ℕ) (st : RunState) (p : ForecastPoint)
    (hexp : cfg.grid_export_enabled = true) :
    |balanceGap (simulateSlot cfg devs mins st p).1| ≤ 1 / 100 := by
  have hgap := energyBalance_gap cfg p.timestamp st.current_soc
    (clampSupply p - slotLoad cfg devs st p) ((mins : ℚ) / 60) hexp
  have e : balanceGap (simulateSlot cfg devs mins st p).1 =
      clampSupply p - slotLoad cfg devs st p +
        (energyBalance cfg p.timestamp st.current_soc
          (clampSupply p - slotLoad cfg devs st p)
          ((mins : ℚ) / 60)).battery_discharge_kw +
        (energyBalance cfg p.timestamp st.current_soc
          (clampSupply p - slotLoad cfg devs st p)
          ((mins : ℚ) / 60)).grid_import_kw +
        (energyBalance cfg p.timestamp st.current_soc
          (clampSupply p - slotLoad cfg devs st p)
          ((mins : ℚ) / 60)).generator_power_kw -
        (energyBalance cfg p.timestamp st.current_soc
          (clampSupply p - slotLoad cfg devs st p)
          ((mins : ℚ) / 60)).battery_charge_kw -
        (energyBalance cfg p.timestamp st.current_soc
          (clampSupply p - slotLoad cfg devs st p)
          ((mins : ℚ) / 60)).grid_export_kw := by
    simp only [balanceGap, simulateSlot_solar, simulateSlot_load,
      simulateSlot_discharge, simulateSlot_gridImport, simulateSlot_generator,
      simulateSlot_charge, simulateSlot_gridExport, slotBalance_eq]
    ring
  rw [e]
  exact hgap

/-- When a slot's residual deficit after battery discharge exceeds 0.01 kW,
it is sourced all-or-nothing from generator or grid by the claim's cost
comparison. -/
theorem simulateSlot_residual (cfg : SchedulerConfig) (devs : List Device)
    (mins : ℕ) (st : RunState) (p : ForecastPoint) (hm : 0 < mins)
    (hr : 1/100 < residualDeficit (simulateSlot cfg devs mins st p).1) :
    (if claimGeneratorCost cfg (simulateSlot cfg devs mins st p).1 <
          claimGridCost cfg (simulateSlot cfg devs mins st p).1 ∧
        residualDeficit (simulateSlot cfg devs mins st p).1 ≤
          cfg.generator_max_power
     then (simulateSlot cfg devs mins st p).1.generator_power_kw =
            residualDeficit (simulateSlot cfg devs mins st p).1 ∧
          (simulateSlot cfg devs mins st p).1.grid_import_kw = 0
     else (simulateSlot cfg devs mins st p).1.grid_import_kw =
            residualDeficit (simulateSlot cfg devs mins st p).1 ∧
          (simulateSlot cfg devs mins st p).1.generator_power_kw = 0) := by
  have hh : (0 : ℚ) < (mins : ℚ) / 60 := by
    apply div_pos _ (by norm_num)
    exact_mod_cast hm
  have hres : residualDeficit (simulateSlot cfg devs mins st p).1 =
      -(clampSupply p - slotLoad cfg devs st p) -
        (energyBalance cfg p.timestamp st.current_soc
          (clampSupply p - slotLoad cfg devs st p)
          ((mins : ℚ) / 60)).battery_discharge_kw := by
    simp only [residualDeficit, simulateSlot_load, simulateSlot_solar,
      simulateSlot_discharge, slotBalance_eq]
    ring
  have main := energyBalance_residual cfg p.timestamp st.current_soc
    (clampSupply p - slotLoad cfg devs st p) ((mins : ℚ) / 60)
    (residualDeficit (simulateSlot cfg devs mins st p).1) hh hres hr
  simp only [claimGeneratorCost, claimGridCost, simulateSlot_time,
    simulateSlot_generator, simulateSlot_gridImport, slotBalance_eq]
  exact main

/-! Membership lemmas for the device selector. -/

/-- The essential loop appends exactly the essential devices to the selection. -/
theorem essFold_fst (l : List Device) :
    ∀ (s : List Device) (b : ℚ),
      (l.foldl (fun acc d =>
        (acc.1 ++ [d], acc.2 - d.power_consumption_watts / 1000)) (s, b)).1 =
        s ++ l := by
  induction l with
  | nil => intro s b; simp
  | cons d t ih => intro s b; simp [List.foldl_cons, ih]

/-- The pump loop never removes an already selected device. -/
theorem pumpStep_mono (cfg : SchedulerConfig) (hour : ℕ)
    (isHighSolar shouldDelay : Bool) (acc : List Device × ℚ) (pump : Device)
    (x : Device) (hx : x ∈ acc.1) :
    x ∈ (pumpStep cfg hour isHighSolar shouldDelay acc pump).1 := by
  simp only [pumpStep]
  split_ifs <;> simp [hx]

/-- The flexible loop never removes an already selected device. -/
theorem flexibleStep_mono (cfg : SchedulerConfig) (hour : ℕ)
    (acc : List Device × ℚ) (device : Device) (x : Device) (hx : x ∈ acc.1) :
    x ∈ (flexibleStep cfg hour acc device).1 := by
  simp only [flexibleStep]
  split_ifs <;> simp [hx]

/-- Folding a selection-monotone step preserves membership. -/
theorem foldl_fst_mono (f : List Device × ℚ → Device → List Device × ℚ)
    (hf : ∀ acc d x, x ∈ acc.1 → x ∈ (f acc d).1) :
    ∀ (l : List Device) (acc : List Device × ℚ) (x : Device),
      x ∈ acc.1 → x ∈ (l.foldl f acc).1 := by
  intro l
  induction l with
  | nil => intro acc x hx; simpa using hx
  | cons d t ih => intro acc x hx; exact ih _ x (hf acc d x hx)

/-- Every active essential device is part of the selection, whatever the
slot context. -/
theorem mem_selectDevicesForSlot_essential (cfg : SchedulerConfig)
    (devices : List Device) (hour : ℕ) (fp : ForecastPoint)
    (soc solar : ℚ) (d : Device) (hd : d ∈ devices)
    (ha : d.is_active = true) (he : d.device_type = "essential") :
    d ∈ selectDevicesForSlot cfg devices hour fp soc solar := by
  simp only [selectDevicesForSlot]
  apply foldl_fst_mono _ (flexibleStep_mono cfg hour)
  apply foldl_fst_mono _ (pumpStep_mono cfg hour _ _)
  rw [essFold_fst]
  simp only [List.nil_append]
  refine List.mem_filter.mpr ⟨hd, ?_⟩
  simp [he, ha]

/-- The attribution record of a device keeps the device's id. -/
theorem deviceSourceRecord_id (su bu gu ge : ℚ) (a : SourceAlloc)
    (d : Device) :
    (deviceSourceRecord su bu gu ge a d).1.id = d.id := rfl

/-- The attribution pass emits one record per selected device, in order,
with the same ids. -/
theorem deviceSourceRecords_ids (su bu gu ge : ℚ) (selected : List Device) :
    (deviceSourceRecords su bu gu ge selected).map (fun r => r.id) =
      selected.map (fun d => d.id) := by
  have key : ∀ (l : List Device) (init : List DeviceWithSource) (a : SourceAlloc),
      ((l.foldl (fun (acc : List DeviceWithSource × SourceAlloc) d =>
          let r := deviceSourceRecord su bu gu ge acc.2 d
          (acc.1 ++ [r.1], r.2)) (init, a)).1).map (fun r => r.id) =
        init.map (fun r => r.id) ++ l.map (fun d => d.id) := by
    intro l
    induction l with
    | nil => intro init a; simp
    | cons d t ih =>
        intro init a
        simp only [List.foldl_cons]
        rw [ih]
        simp [deviceSourceRecord_id]
  simpa [deviceSourceRecords] using key selected [] ⟨0, 0, 0, 0⟩

/-- The ids listed in a slot's `devices` are exactly the ids of the selected
devices. -/
theorem simulateSlot_devices_ids (cfg : SchedulerConfig) (devs : List Device)
    (mins : ℕ) (st : RunState) (p : ForecastPoint) :
    (simulateSlot cfg devs mins st p).1.devices.map (fun r => r.id) =
      (selectDevicesForSlot cfg devs p.timestamp p st.current_soc
        (clampSupply p)).map (fun d => d.id) :=
  deviceSourceRecords_ids _ _ _ _ _

/-! Claim theorems. -/

/-- C1: for every run and every forecast slot, the battery state of charge
recorded at the end of the slot satisfies
`battery_min_soc ≤ battery_soc ≤ battery_max_soc` (assuming
`battery_min_soc < battery_max_soc` and `battery_capacity_kwh > 0`),
regardless of the caller-supplied initial SOC, because the stored battery
energy is clamped to `[min_soc, max_soc] × capacity` at the end of every
slot. -/
theorem claim_C1_soc_within_bounds (cfg : SchedulerConfig)
    (fc : List ForecastPoint) (devs : List Device) (soc0 : ℚ) (mins : ℕ)
    (hcap : 0 < cfg.battery_capacity_kwh)
    (hlt : cfg.battery_min_soc < cfg.battery_max_soc) :
    ∀ s ∈ (generateSchedule cfg fc devs soc0 mins).schedule,
      cfg.battery_min_soc ≤ s.battery_soc ∧
        s.battery_soc ≤ cfg.battery_max_soc :=
  generateSchedule_slots_forall cfg fc devs soc0 mins _
    (fun ds st p => simulateSlot_soc_mem cfg ds mins st p hcap hlt.le)

/-- Witness for C1 at a concrete run's first slot. -/
theorem claim_C1_witness :
    cfgBase.battery_min_soc ≤
        ((generateSchedule cfgBase [⟨10, some 5⟩] [essentialLight]
          (1/2) 60).schedule.headI).battery_soc ∧
      ((generateSchedule cfgBase [⟨10, some 5⟩] [essentialLight]
          (1/2) 60).schedule.headI).battery_soc ≤ cfgBase.battery_max_soc :=
  claim_C1_soc_within_bounds cfgBase [⟨10, some 5⟩] [essentialLight] (1/2) 60
    (by norm_num [cfgBase]) (by norm_num [cfgBase]) _
    (by with_unfolding_all decide)

/-- C2 counterexample: with grid export disabled and surplus beyond the
battery's charge limit (the spec's own Scenario B), the surplus is
discarded and the claimed per-slot balance equation fails: the slot has
supply 5 kW, load 1 kW, charge 2 kW, and no export. -/
theorem claim_C2_counterexample :
    ¬ ∀ s ∈ (generateSchedule cfgNoExport [⟨10, some 5⟩] [essentialLight]
        (1/2) 60).schedule,
      s.solar_generation_kw + s.battery_discharge_kw + s.grid_import_kw +
          s.generator_power_kw =
        s.total_load_kw + s.battery_charge_kw + s.grid_export_kw := by
  with_unfolding_all decide

/-- C2 amended: with grid export enabled, every slot of every run balances
up to the engine's 0.01 kW thresholds (surplus of at most 0.01 kW is not
exported and a residual deficit of at most 0.01 kW is not dispatched); with
export disabled the discarded surplus is unbounded. -/
theorem claim_C2_balance_within_threshold (cfg : SchedulerConfig)
    (fc : List ForecastPoint) (devs : List Device) (soc0 : ℚ) (mins : ℕ)
    (hexp : cfg.grid_export_enabled = true) :
    ∀ s ∈ (generateSchedule cfg fc devs soc0 mins).schedule,
      |balanceGap s| ≤ 1 / 100 :=
  generateSchedule_slots_forall cfg fc devs soc0 mins _
    (fun ds st p => simulateSlot_balanceGap cfg ds mins st p hexp)

/-- Witness for the amended C2 at a concrete run's first slot. -/
theorem claim_C2_witness :
    |balanceGap ((generateSchedule cfgBase [⟨10, some 5⟩] [essentialLight]
        (1/2) 60).schedule.headI)| ≤ 1 / 100 :=
  claim_C2_balance_within_threshold cfgBase [⟨10, some 5⟩] [essentialLight]
    (1/2) 60 rfl _ (by with_unfolding_all decide)

/-- C3 counterexample: a device catalog with zero active entries does not
prevent slots from being produced — the engine performs no configuration
validation, so one slot is emitted for the one forecast point. -/
theorem claim_C3_counterexample :
    (generateSchedule cfgBase [⟨10, some 5⟩] [] (1/2) 10).schedule.length ≠
      0 := by
  with_unfolding_all decide

/-- C3 amended: `generate_schedule` performs no input validation and raises
nothing; it always emits exactly one slot per forecast point, for any device
catalog (including an empty one) and any configuration (including
`battery_min_soc ≥ battery_max_soc`); an empty forecast series yields an
empty schedule, not an error. -/
theorem claim_C3_no_validation (cfg : SchedulerConfig)
    (fc : List ForecastPoint) (devs : List Device) (soc0 : ℚ) (mins : ℕ) :
    (generateSchedule cfg fc devs soc0 mins).schedule.length = fc.length := by
  simp only [generateSchedule]
  have h := runSlots_map_solar cfg
    ((devs.filter (fun d => d.is_active)).mergeSort deviceSortLE) mins fc
  calc ((runSlots cfg ((devs.filter (fun d => d.is_active)).mergeSort
          deviceSortLE) mins _ fc).1).length
      = (((runSlots cfg ((devs.filter (fun d => d.is_active)).mergeSort
          deviceSortLE) mins _ fc).1).map
            (fun s => s.solar_generation_kw)).length := (List.length_map _ _).symm
    _ = (fc.map clampSupply).length := by rw [h]
    _ = fc.length := List.length_map _ _

/-- C4 evaluation of the code at the claim's own scenario (Scenario C): one
irrigation device, a 50 % forecast drop from slot 1 (10 kW) to slot 2
(5 kW), initial SOC 0.3.  The claim expects the device absent from slot 1's
selection; the code selects it in both slots, because the deferral check
compares the current slot's forecast with itself (the current
`forecast_point`, not the next one, is passed to the selector), so no drop
is ever detected. -/
theorem claim_C4_code_eval :
    ((generateSchedule cfgBase [⟨10, some 10⟩, ⟨11, some 5⟩] [irrigationPump]
        (3/10) 60).schedule.map (fun s => s.devices.map (fun r => r.id))) =
      [[7], [7]] := by
  with_unfolding_all decide

/-- C5 counterexample: a slot with a residual deficit of 0.005 kW (below the
engine's 0.01 kW threshold) is sourced from neither grid nor generator, so
the claimed dichotomy fails for slots with a positive residual deficit. -/
theorem claim_C5_counterexample :
    ¬ ∀ s ∈ (generateSchedule cfgBase [⟨10, some 0⟩] [sensorEssential]
        (1/5) 60).schedule,
      0 < residualDeficit s →
        (if claimGeneratorCost cfgBase s < claimGridCost cfgBase s ∧
            residualDeficit s ≤ cfgBase.generator_max_power
         then s.generator_power_kw = residualDeficit s ∧ s.grid_import_kw = 0
         else s.grid_import_kw = residualDeficit s ∧
            s.generator_power_kw = 0) := by
  with_unfolding_all decide

/-- C5 amended: for every slot whose residual deficit after battery
discharge exceeds the engine's 0.01 kW threshold, the deficit is sourced
entirely from the generator when the claim's generator cost is strictly
below the claim's grid cost and the deficit is within generator capacity,
and entirely from the grid otherwise — all-or-nothing, never a split. -/
theorem claim_C5_all_or_nothing (cfg : SchedulerConfig)
    (fc : List ForecastPoint) (devs : List Device) (soc0 : ℚ) (mins : ℕ)
    (hm : 0 < mins) :
    ∀ s ∈ (generateSchedule cfg fc devs soc0 mins).schedule,
      1/100 < residualDeficit s →
        (if claimGeneratorCost cfg s < claimGridCost cfg s ∧
            residualDeficit s ≤ cfg.generator_max_power
         then s.generator_power_kw = residualDeficit s ∧ s.grid_import_kw = 0
         else s.grid_import_kw = residualDeficit s ∧
            s.generator_power_kw = 0) :=
  generateSchedule_slots_forall cfg fc devs soc0 mins _
    (fun ds st p hr => simulateSlot_residual cfg ds mins st p hm hr)

/-- Witness for the amended C5 at the spec's Scenario D (cheap generator,
2 kW deficit within generator capacity): the first slot's deficit is fully
generator-sourced. -/
theorem claim_C5_witness :
    ((generateSchedule cfgCheapGenerator [⟨10, some 0⟩] [heavyEssential]
        (1/5) 60).schedule.headI).generator_power_kw =
      residualDeficit ((generateSchedule cfgCheapGenerator [⟨10, some 0⟩]
        [heavyEssential] (1/5) 60).schedule.headI) ∧
      ((generateSchedule cfgCheapGenerator [⟨10, some 0⟩] [heavyEssential]
        (1/5) 60).schedule.headI).grid_import_kw = 0 := by
  have h := claim_C5_all_or_nothing cfgCheapGenerator [⟨10, some 0⟩]
    [heavyEssential] (1/5) 60 (by norm_num)
    ((generateSchedule cfgCheapGenerator [⟨10, some 0⟩] [heavyEssential]
      (1/5) 60).schedule.headI)
    (by with_unfolding_all decide) (by with_unfolding_all decide)
  rwa [if_pos (by with_unfolding_all decide)] at h

/-- C6: for every slot of every run (with the initial SOC inside the
configured band and nonnegative configured rates), the battery charge and
discharge stay within the configured maxima and are never both strictly
positive in the same slot. -/
theorem claim_C6_battery_rate_limits (cfg : SchedulerConfig)
    (fc : List ForecastPoint) (devs : List Device) (soc0 : ℚ) (mins : ℕ)
    (_hs1 : cfg.battery_min_soc ≤ soc0) (_hs2 : soc0 ≤ cfg.battery_max_soc)
    (hc : 0 ≤ cfg.battery_max_charge_kw)
    (hd : 0 ≤ cfg.battery_max_discharge_kw) :
    ∀ s ∈ (generateSchedule cfg fc devs soc0 mins).schedule,
      s.battery_charge_kw ≤ cfg.battery_max_charge_kw ∧
        s.battery_discharge_kw ≤ cfg.battery_max_discharge_kw ∧
        ¬(0 < s.battery_charge_kw ∧ 0 < s.battery_discharge_kw) :=
  generateSchedule_slots_forall cfg fc devs soc0 mins _
    (fun ds st p => by
      refine ⟨?_, ?_, ?_⟩
      · rw [simulateSlot_charge, slotBalance_eq]
        exact energyBalance_charge_le cfg p.timestamp st.current_soc _ _ hc
      · rw [simulateSlot_discharge, slotBalance_eq]
        exact energyBalance_discharge_le cfg p.timestamp st.current_soc _ _ hd
      · rw [simulateSlot_charge, simulateSlot_discharge, slotBalance_eq]
        exact energyBalance_not_both cfg p.timestamp st.current_soc _ _)

/-- Witness for C6 at a concrete run's first slot. -/
theorem claim_C6_witness :
    ((generateSchedule cfgBase [⟨10, some 5⟩] [essentialLight]
          (1/2) 60).schedule.headI).battery_charge_kw ≤
        cfgBase.battery_max_charge_kw ∧
      ((generateSchedule cfgBase [⟨10, some 5⟩] [essentialLight]
          (1/2) 60).schedule.headI).battery_discharge_kw ≤
        cfgBase.battery_max_discharge_kw ∧
      ¬(0 < ((generateSchedule cfgBase [⟨10, some 5⟩] [essentialLight]
          (1/2) 60).schedule.headI).battery_charge_kw ∧
        0 < ((generateSchedule cfgBase [⟨10, some 5⟩] [essentialLight]
          (1/2) 60).schedule.headI).battery_discharge_kw) :=
  claim_C6_battery_rate_limits cfgBase [⟨10, some 5⟩] [essentialLight]
    (1/2) 60 (by norm_num [cfgBase]) (by norm_num [cfgBase])
    (by norm_num [cfgBase]) (by norm_num [cfgBase]) _
    (by with_unfolding_all decide)

/-- C7: for every run and every slot, every device marked active whose class
is essential appears in that slot's selected device set, unconditionally. -/
theorem claim_C7_essential_always_selected (cfg : SchedulerConfig)
    (fc : List ForecastPoint) (devs : List Device) (soc0 : ℚ) (mins : ℕ)
    (d : Device) (hd : d ∈ devs) (ha : d.is_active = true)
    (he : d.device_type = "essential") :
    ∀ s ∈ (generateSchedule cfg fc devs soc0 mins).schedule,
      d.id ∈ s.devices.map (fun r => r.id) := by
  intro s hs
  simp only [generateSchedule] at hs
  refine runSlots_forall cfg _ mins
    (fun s => d.id ∈ s.devices.map (fun r => r.id)) ?_ fc _ s hs
  intro st p
  rw [simulateSlot_devices_ids]
  refine List.mem_map.mpr ⟨d, ?_, rfl⟩
  refine mem_selectDevicesForSlot_essential cfg _ _ _ _ _ d ?_ ha he
  rw [List.mem_mergeSort]
  exact List.mem_filter.mpr ⟨hd, ha⟩

/-- Witness for C7 at a concrete run's first slot. -/
theorem claim_C7_witness :
    essentialLight.id ∈
      ((generateSchedule cfgBase [⟨10, some 5⟩] [essentialLight]
        (1/2) 60).schedule.headI).devices.map (fun r => r.id) :=
  claim_C7_essential_always_selected cfgBase [⟨10, some 5⟩] [essentialLight]
    (1/2) 60 essentialLight (by simp) rfl rfl _
    (by with_unfolding_all decide)

/-- C8: `generate_schedule` is deterministic — two calls with identical
inputs return identical run results (the embedding is a pure function of
exactly these inputs, which also captures that a call leaves the
configuration and the inputs unchanged). -/
theorem claim_C8_deterministic (cfg : SchedulerConfig)
    (f1 f2 : List ForecastPoint) (d1 d2 : List Device) (s1 s2 : ℚ)
    (m1 m2 : ℕ) (hf : f1 = f2) (hd : d1 = d2) (hs : s1 = s2)
    (hm : m1 = m2) :
    generateSchedule cfg f1 d1 s1 m1 = generateSchedule cfg f2 d2 s2 m2 := by
  rw [hf, hd, hs, hm]

/-- Witness for C8 at a concrete run. -/
theorem claim_C8_witness :
    generateSchedule cfgBase [⟨10, some 5⟩] [essentialLight] (1/2) 60 =
      generateSchedule cfgBase [⟨10, some 5⟩] [essentialLight] (1/2) 60 :=
  claim_C8_deterministic cfgBase _ _ _ _ _ _ _ _ rfl rfl rfl rfl

/-- C9 counterexample: for a forecast point with a negative supply value the
run is NOT "as if that slot's supply were 0 kW": the selector re-reads the
raw (unclamped) mean for its power-drop check, so with supply −5 kW,
SOC 0.3 and an irrigation device, the device is deferred, while with supply
0 kW it is selected — the two runs differ. -/
theorem claim_C9_counterexample :
    generateSchedule cfgBase [⟨10, some (-5)⟩] [irrigationPump] (3/10) 60 ≠
      generateSchedule cfgBase [⟨10, some 0⟩] [irrigationPump] (3/10) 60 := by
  with_unfolding_all decide

/-- C9 amended: negative (or missing) supply values are clamped to zero for
the slot's recorded supply and energy balance, and the run continues
without raising — one slot per forecast point; but the selector still sees
the raw value, so the rest of the run's output is not always as if the
slot's supply were 0 kW. -/
theorem claim_C9_clamped_supply (cfg : SchedulerConfig)
    (fc : List ForecastPoint) (devs : List Device) (soc0 : ℚ) (mins : ℕ) :
    (generateSchedule cfg fc devs soc0 mins).schedule.map
      (fun s => s.solar_generation_kw) = fc.map clampSupply := by
  simp only [generateSchedule]
  exact runSlots_map_solar cfg _ mins fc _

/-- C10: device classification for selection is decided by name as well as
class.  With zero available supply: an active device of declared class
flexible or optional whose lower-cased name contains `irrigation` or `pump`
is treated as an irrigation device — it bypasses the flexible budget check
and, having priority ≤ 2, is selected even with zero budget via the
irrigation override; an otherwise identical flexible/optional device
without such a name is rejected by the flexible budget check. -/
theorem claim_C10_name_based_classification (cfg : SchedulerConfig)
    (hour : ℕ) (soc : ℚ) (d e : Device)
    (hda : d.is_active = true)
    (hdt : d.device_type = "flexible" ∨ d.device_type = "optional")
    (hdn : containsChars "irrigation".data (lowerName d.name) = true ∨
      containsChars "pump".data (lowerName d.name) = true)
    (hdp : d.priority_level ≤ 2)
    (hdh : d.preferred_hours = none)
    (hdw : 0 < d.power_consumption_watts)
    (hea : e.is_active = true)
    (het : e.device_type = "flexible" ∨ e.device_type = "optional")
    (hen : isIrrigationPumpNamed e = false)
    (heh : e.preferred_hours = none)
    (hew : 0 < e.power_consumption_watts) :
    d ∈ selectDevicesForSlot cfg [d] hour ⟨hour, some 0⟩ soc 0 ∧
      e ∉ selectDevicesForSlot cfg [e] hour ⟨hour, some 0⟩ soc 0 := by
  have hdpow : (0 : ℚ) < d.power_consumption_watts / 1000 :=
    div_pos hdw (by norm_num)
  have hepow : (0 : ℚ) < e.power_consumption_watts / 1000 :=
    div_pos hew (by norm_num)
  have hpump : isIrrigationPumpNamed d = true := by
    rcases hdn with h | h <;> simp [isIrrigationPumpNamed, h]
  have hhigh : (decide ((0 : ℚ) > max 20 (cfg.capacity_kw * (1/2)))) = false :=
    decide_eq_false (not_lt.mpr (le_trans (by norm_num) (le_max_left 20 _)))
  have hdrop : (decide ((0 : ℚ) < 0)) = false :=
    decide_eq_false (lt_irrefl (0 : ℚ))
  constructor
  · have hdess : (d.device_type == "essential") = false := by
      rcases hdt with h | h <;> rw [h] <;> decide
    have hnp : ¬ (d.power_consumption_watts / 1000 ≤ 0) := not_le.mpr hdpow
    simp [selectDevicesForSlot, pumpStep, inPreferredHours, essentialBuffer,
      hdess, hda, hpump, hdh, hdrop, hhigh, hdp, hnp]
    rw [if_neg (by norm_num : ¬((20 : ℚ) < 0 ∧ cfg.capacity_kw * 2⁻¹ < 0))]
    simp
  · have heess : (e.device_type == "essential") = false := by
      rcases het with h | h <;> rw [h] <;> decide
    have heflex : (e.device_type == "flexible" || e.device_type == "optional") =
        true := by
      rcases het with h | h <;> rw [h] <;> decide
    have hne1 : ¬ ((0 : ℚ) - e.power_consumption_watts / 1000 ≥ 0) := by
      rw [zero_sub]
      exact not_le.mpr (neg_lt_zero.mpr hepow)
    have hne2 : ¬ ((0 : ℚ) ≤ -(e.power_consumption_watts / 1000)) :=
      not_le.mpr (neg_lt_zero.mpr hepow)
    simp [selectDevicesForSlot, flexibleStep, inPreferredHours,
      essentialBuffer, heess, hea, hen, heflex, heh, hne1, hne2]

/-- Witness for C10: a flexible device named `water pump` is selected with
zero budget, an identical flexible device named `heater` is not. -/
theorem claim_C10_witness :
    waterPumpFlexible ∈ selectDevicesForSlot cfgBase [waterPumpFlexible] 9
        ⟨9, some 0⟩ (1/2) 0 ∧
      heaterFlexible ∉ selectDevicesForSlot cfgBase [heaterFlexible] 9
        ⟨9, some 0⟩ (1/2) 0 :=
  claim_C10_name_based_classification cfgBase 9 (1/2) waterPumpFlexible
    heaterFlexible rfl (Or.inl rfl) (Or.inr (by with_unfolding_all decide))
    (by decide) rfl (by norm_num [waterPumpFlexible]) rfl (Or.inl rfl)
    (by with_unfolding_all decide) rfl (by norm_num [heaterFlexible])

end SuryaDrishti
